import Mathlib

/-!
Verification development for the portfolio application in `newapp.py`
(Streamlit + MongoDB, single file).  The Python code is shallowly embedded:

* a Python `str` is modelled as its list of Unicode code points (`PyStr`);
* a Python `bytes` value is a list of naturals, each below 256 (`Bytes`);
* `base64.b64encode` / `base64.b64decode` are implemented bit-for-bit,
  including CPython's lenient `binascii.a2b_base64` automaton (invalid
  characters skipped, termination at sufficient padding, `binascii.Error`
  modelled as `none` when leftover data or padding is wrong);
* `hashlib.pbkdf2_hmac("sha256", pw, salt, n)` is an external primitive,
  so every definition that needs it takes an arbitrary key-derivation
  function `kdf : Bytes → Bytes → Nat → Bytes` as a parameter, and
  `os.urandom(SALT_SIZE)` is modelled by an explicit `salt` argument;
* the MongoDB `users` collection is a list of documents with a unique
  index on `username` (`insert_one` fails when the key is taken);
* each Streamlit button handler becomes a function from the application
  state (collection contents plus `st.session_state.user`) and the form
  inputs to a result message and a new state; `datetime.utcnow()` is an
  explicit `now` argument.
-/

set_option autoImplicit false

namespace Newapp

/-- A Python `str`, as its list of Unicode code points. -/
abbrev PyStr := List Nat

/-- A Python `bytes` value, as a list of naturals (each intended < 256). -/
abbrev Bytes := List Nat

/-- Code points of a Lean string literal, for writing concrete Python strings. -/
def pyStr (s : String) : PyStr :=
  s.data.map Char.toNat

/-- Whitespace test used by Python `str.strip()` (ASCII whitespace: space,
tab, newline, carriage return, vertical tab, form feed). -/
def pyIsSpace (c : Nat) : Bool :=
  c = 32 || c = 9 || c = 10 || c = 13 || c = 11 || c = 12

/-- Python `str.strip()`: drop leading and trailing whitespace. -/
def pyStrip (s : PyStr) : PyStr :=
  ((s.dropWhile pyIsSpace).reverse.dropWhile pyIsSpace).reverse

/-- Python `str.lower()` on one code point (ASCII case folding; the usernames
and search terms of the application are ASCII). -/
def pyLowerChar (c : Nat) : Nat :=
  if 65 ≤ c ∧ c ≤ 90 then c + 32 else c

/-- Python `str.lower()`. -/
def pyLower (s : PyStr) : PyStr :=
  s.map pyLowerChar

/-- UTF-8 encoding of one code point, as in Python `str.encode("utf-8")`. -/
def utf8EncodeChar (c : Nat) : Bytes :=
  if c < 128 then [c]
  else if c < 2048 then [192 + c / 64, 128 + c % 64]
  else if c < 65536 then [224 + c / 4096, 128 + c / 64 % 64, 128 + c % 64]
  else [240 + c / 262144, 128 + c / 4096 % 64, 128 + c / 64 % 64, 128 + c % 64]

/-- Python `str.encode("utf-8")`. -/
def utf8Encode : PyStr → Bytes
  | [] => []
  | c :: rest => utf8EncodeChar c ++ utf8Encode rest

/-! ### Base64 (`base64.b64encode`, `base64.b64decode`) -/

/-- ASCII code of the standard base64 alphabet character for a sextet. -/
def b64EncChar (v : Nat) : Nat :=
  if v < 26 then 65 + v
  else if v < 52 then 97 + (v - 26)
  else if v < 62 then 48 + (v - 52)
  else if v = 62 then 43
  else 47

/-- Sextet value of an ASCII code in the standard base64 alphabet
(`none` for every other character, including the padding sign). -/
def b64DecVal (c : Nat) : Option Nat :=
  if 65 ≤ c ∧ c ≤ 90 then some (c - 65)
  else if 97 ≤ c ∧ c ≤ 122 then some (c - 97 + 26)
  else if 48 ≤ c ∧ c ≤ 57 then some (c - 48 + 52)
  else if c = 43 then some 62
  else if c = 47 then some 63
  else none

/-- Python `base64.b64encode`: bytes in, ASCII codes of the base64 text out
(code 61 is the padding character). -/
def b64encode : Bytes → Bytes
  | [] => []
  | [a] => [b64EncChar (a / 4), b64EncChar (a % 4 * 16), 61, 61]
  | [a, b] => [b64EncChar (a / 4), b64EncChar (a % 4 * 16 + b / 16),
               b64EncChar (b % 16 * 4), 61]
  | a :: b :: c :: rest =>
      b64EncChar (a / 4) :: b64EncChar (a % 4 * 16 + b / 16) ::
      b64EncChar (b % 16 * 4 + c / 64) :: b64EncChar (c % 64) :: b64encode rest

/-- CPython `binascii.a2b_base64` in non-strict mode, as used by
`base64.b64decode`: state is the position in the current quad, the pending
bits, the number of padding characters seen, and the output accumulated in
reverse.  Invalid characters are skipped; a padding character at quad
position `≥ 2` counts towards termination; leftover data at the end of the
input raises `binascii.Error`, modelled as `none`. -/
def b64decodeAux : Bytes → Nat → Nat → Nat → Bytes → Option Bytes
  | [], quadPos, _, _, acc =>
      if quadPos = 0 then some acc.reverse else none
  | c :: rest, quadPos, leftchar, pads, acc =>
      if c = 61 then
        if 2 ≤ quadPos then
          if 4 ≤ quadPos + (pads + 1) then some acc.reverse
          else b64decodeAux rest quadPos leftchar (pads + 1) acc
        else b64decodeAux rest quadPos leftchar pads acc
      else
        match b64DecVal c with
        | none => b64decodeAux rest quadPos leftchar pads acc
        | some d =>
          match quadPos with
          | 0 => b64decodeAux rest 1 d pads acc
          | 1 => b64decodeAux rest 2 (d % 16) pads ((leftchar * 4 + d / 16) :: acc)
          | 2 => b64decodeAux rest 3 (d % 4) pads ((leftchar * 16 + d / 4) :: acc)
          | _ => b64decodeAux rest 0 0 pads ((leftchar * 64 + d) :: acc)

/-- Python `base64.b64decode`: `none` models a raised `binascii.Error`. -/
def b64decode (s : Bytes) : Option Bytes :=
  b64decodeAux s 0 0 0 []

/-! ### Credential hasher (`hash_password`, `verify_password`) -/

/-- The type of `hashlib.pbkdf2_hmac("sha256", password, salt, iterations)`,
kept abstract: arguments are the password bytes, the salt and the iteration
count. -/
abbrev Kdf := Bytes → Bytes → Nat → Bytes

def SALT_SIZE : Nat := 16

def ITERATIONS : Nat := 100000

/-- `hash_password` from `newapp.py`: base64-encoded salt‖derived-key.  The
fresh random salt `os.urandom(SALT_SIZE)` is an explicit argument. -/
def hash_password (kdf : Kdf) (salt : Bytes) (password : PyStr) : Bytes :=
  b64encode (salt ++ kdf (utf8Encode password) salt ITERATIONS)

/-- `verify_password` from `newapp.py`.  `none` models the uncaught
`binascii.Error` raised by `base64.b64decode` on a malformed digest;
`hmac.compare_digest` is equality of byte strings (it returns `False` on a
length mismatch). -/
def verify_password (kdf : Kdf) (stored_b64 : Bytes) (password : PyStr) : Option Bool :=
  match b64decode stored_b64 with
  | none => none
  | some data =>
      let salt := data.take SALT_SIZE
      let key_stored := data.drop SALT_SIZE
      let key_new := kdf (utf8Encode password) salt ITERATIONS
      some (key_stored == key_new)

/-- `image_bytes_to_base64` from `newapp.py`. -/
def image_bytes_to_base64 (file_bytes : Bytes) : Bytes :=
  b64encode file_bytes

/-! ### Data model: the `users` collection and the session -/

/-- One entry of the `projects` list: a dict with keys
`title`, `description`, `link`. -/
structure ProjectEntry where
  title : PyStr
  description : PyStr
  link : PyStr
  deriving DecidableEq, Repr

/-- A document of the `users` collection, with the fields written by the
signup handler (`social_links` is a Python dict, modelled as an association
list; `profile_pic` is `None` or base64 text). -/
structure UserDoc where
  username : PyStr
  full_name : PyStr
  email : PyStr
  password_hash : Bytes
  bio : PyStr
  skills : List PyStr
  projects : List ProjectEntry
  social_links : List (String × PyStr)
  profile_pic : Option Bytes
  created_at : Nat
  updated_at : Nat
  deriving DecidableEq, Repr

/-- The application state: the contents of the `users` collection (in
natural order) and `st.session_state.user`. -/
structure AppState where
  store : List UserDoc
  session : Option PyStr
  deriving DecidableEq, Repr

/-- `users_col.find_one` on a `username` equality query: the first document
in natural order whose username matches. -/
def find_one (store : List UserDoc) (uname : PyStr) : Option UserDoc :=
  store.find? (fun d => d.username == uname)

/-- `users_col.insert_one` under the unique index on `username`
(line 67 of `newapp.py`): `none` models the raised `DuplicateKeyError`,
leaving the collection unchanged; otherwise the document is appended. -/
def insert_one (store : List UserDoc) (doc : UserDoc) : Option (List UserDoc) :=
  if store.any (fun d => d.username == doc.username) then none
  else some (store ++ [doc])

/-! ### Signup handler (`newapp.py` lines 136–161) -/

/-- Outcome of the Sign up button handler: the `st.warning` / `st.success` /
`st.error` message shown. -/
inductive SignupResult where
  /-- Warning: please provide username and password. -/
  | missingFields
  /-- Warning: passwords don't match. -/
  | passwordMismatch
  /-- Success: account created, you can now log in. -/
  | accountCreated
  /-- Error branch of the `except` handler (for example a duplicate key). -/
  | createError
  deriving DecidableEq, Repr

/-- The document built by the signup handler (lines 145–157). -/
def signupDoc (kdf : Kdf) (salt : Bytes) (username full_name email password : PyStr)
    (now : Nat) : UserDoc :=
  { username := pyLower (pyStrip username)
    full_name := pyStrip full_name
    email := pyStrip email
    password_hash := hash_password kdf salt password
    bio := []
    skills := []
    projects := []
    social_links := []
    profile_pic := none
    created_at := now
    updated_at := now }

/-- The Sign up button handler.  Empty strings are falsy in Python, so the
first guard is emptiness of username or password; the session is untouched
(no auto-login). -/
def signup (kdf : Kdf) (salt : Bytes) (st : AppState)
    (username full_name email password confirm : PyStr) (now : Nat) :
    SignupResult × AppState :=
  if username = [] ∨ password = [] then (.missingFields, st)
  else if password ≠ confirm then (.passwordMismatch, st)
  else
    match insert_one st.store (signupDoc kdf salt username full_name email password now) with
    | some store' => (.accountCreated, { st with store := store' })
    | none => (.createError, st)

/-! ### Login handler (`newapp.py` lines 167–180) -/

/-- Outcome of the Login button handler. -/
inductive LoginResult where
  /-- Warning: enter username and password. -/
  | missingFields
  /-- Error: invalid username or password (shown both when the user is
  absent and when verification fails). -/
  | invalidCredentials
  /-- Success: `login_user(user["username"])` was called. -/
  | loggedIn (username : PyStr)
  /-- An exception escaped `verify_password` (malformed stored digest);
  the handler has no `try`/`except`, so it propagates. -/
  | decodeException
  deriving DecidableEq, Repr

/-- The Login button handler. -/
def login (kdf : Kdf) (st : AppState) (username password : PyStr) :
    LoginResult × AppState :=
  if username = [] ∨ password = [] then (.missingFields, st)
  else
    match find_one st.store (pyLower (pyStrip username)) with
    | none => (.invalidCredentials, st)
    | some user =>
        match verify_password kdf user.password_hash password with
        | none => (.decodeException, st)
        | some true => (.loggedIn user.username, { st with session := some user.username })
        | some false => (.invalidCredentials, st)

/-! ### Portfolio search and single-user view (`newapp.py` lines 189–213) -/

/-- Whether `hay` begins with `pat`. -/
def listStarts : List Nat → List Nat → Bool
  | _, [] => true
  | [], _ :: _ => false
  | h :: hs, p :: ps => h == p && listStarts hs ps

/-- Whether `pat` occurs contiguously inside `hay`. -/
def listHasSub (hay pat : List Nat) : Bool :=
  match hay with
  | [] => listStarts [] pat
  | _ :: t => listStarts hay pat || listHasSub t pat

/-- A `$regex` condition with `$options: "i"`, for a pattern without regex
metacharacters (the handler passes the search term verbatim): the
case-folded pattern occurs inside the case-folded field. -/
def regexMatchCI (field pat : PyStr) : Bool :=
  listHasSub (pyLower field) (pyLower pat)

/-- The query built by the explore column (lines 192–201): empty search term
gives the empty query (match everything), otherwise the `$or` of the three
case-insensitive regex conditions on username, full name and skills, with
the term stripped and lowercased. -/
def searchMatch (search_term : PyStr) (d : UserDoc) : Bool :=
  if search_term = [] then true
  else
    let term := pyLower (pyStrip search_term)
    regexMatchCI d.username term || regexMatchCI d.full_name term ||
      d.skills.any (fun s => regexMatchCI s term)

/-- Descending stable insertion by `updated_at`, modelling
`.sort("updated_at", -1)`. -/
def insertByUpdatedDesc (d : UserDoc) : List UserDoc → List UserDoc
  | [] => [d]
  | e :: t => if e.updated_at < d.updated_at then d :: e :: t
              else e :: insertByUpdatedDesc d t

/-- Sort a document list by `updated_at`, most recently updated first. -/
def sortByUpdatedDesc (l : List UserDoc) : List UserDoc :=
  l.foldr insertByUpdatedDesc []

/-- A BSON field value, for rendering a document as the key/value pairs the
driver returns. -/
inductive FieldVal where
  | vStr (s : PyStr)
  | vStrList (l : List PyStr)
  | vProjects (l : List ProjectEntry)
  | vLinks (l : List (String × PyStr))
  | vBlob (b : Option Bytes)
  | vDate (t : Nat)
  deriving DecidableEq, Repr

/-- The key/value pairs of a stored document, in field order. -/
def docFields (d : UserDoc) : List (String × FieldVal) :=
  [("username", .vStr d.username),
   ("full_name", .vStr d.full_name),
   ("email", .vStr d.email),
   ("password_hash", .vStr d.password_hash),
   ("bio", .vStr d.bio),
   ("skills", .vStrList d.skills),
   ("projects", .vProjects d.projects),
   ("social_links", .vLinks d.social_links),
   ("profile_pic", .vBlob d.profile_pic),
   ("created_at", .vDate d.created_at),
   ("updated_at", .vDate d.updated_at)]

/-- An exclusion projection `\x7bfield: 0\x7d`: every key of the document
except the excluded one. -/
def excludeField (d : UserDoc) (excl : String) : List (String × FieldVal) :=
  (docFields d).filter (fun kv => kv.1 ≠ excl)

/-- Line 203: `users_col.find(query, {"password_hash": 0}).sort("updated_at", -1)`,
as the projected key/value views of the matching documents. -/
def search_portfolios (store : List UserDoc) (search_term : PyStr) :
    List (List (String × FieldVal)) :=
  (sortByUpdatedDesc (store.filter (searchMatch search_term))).map
    (fun d => excludeField d "password_hash")

/-- Line 213: `users_col.find_one({"username": selected_username},
{"password_hash": 0})`. -/
def view_user (store : List UserDoc) (selected_username : PyStr) :
    Option (List (String × FieldVal)) :=
  (find_one store selected_username).map (fun d => excludeField d "password_hash")

/-! ### Edit page and Save portfolio handler (`newapp.py` lines 289–369) -/

/-- The `updated` dict built by the Save handler (lines 348–361): exactly
the keys passed to `$set`. -/
structure SetDoc where
  full_name : PyStr
  bio : PyStr
  skills : List PyStr
  projects : List ProjectEntry
  social_links : List (String × PyStr)
  updated_at : Nat
  profile_pic : Option Bytes
  deriving DecidableEq, Repr

/-- Apply a `$set` of the Save handler's keys to a document. -/
def applySet (s : SetDoc) (d : UserDoc) : UserDoc :=
  { d with
    full_name := s.full_name
    bio := s.bio
    skills := s.skills
    projects := s.projects
    social_links := s.social_links
    updated_at := s.updated_at
    profile_pic := s.profile_pic }

/-- `users_col.update_one({"username": uname}, {"$set": s})`: the first
matching document receives the `$set`; no match is a silent no-op
(`matched_count = 0`). -/
def update_one (store : List UserDoc) (uname : PyStr) (s : SetDoc) : List UserDoc :=
  match store with
  | [] => []
  | d :: rest =>
      if d.username == uname then applySet s d :: rest
      else d :: update_one rest uname s

/-- Python `"s".split(",")` helper: split at code 44, keeping empty pieces. -/
def splitCommaAux : List Nat → List Nat → List PyStr
  | [], cur => [cur.reverse]
  | c :: rest, cur =>
      if c = 44 then cur.reverse :: splitCommaAux rest []
      else splitCommaAux rest (c :: cur)

/-- Python `s.split(",")`. -/
def pySplitComma (s : PyStr) : List PyStr :=
  splitCommaAux s []

/-- Line 351: `[s.strip() for s in skills_raw.split(",") if s.strip()]`. -/
def parseSkills (skills_raw : PyStr) : List PyStr :=
  (pySplitComma skills_raw).filterMap
    (fun s => let t := pyStrip s; if t = [] then none else some t)

/-- The text inputs of the portfolio form. -/
structure PortfolioForm where
  full_name : PyStr
  bio : PyStr
  skills_raw : PyStr
  github : PyStr
  linkedin : PyStr
  website : PyStr
  deriving DecidableEq, Repr

/-- Outcome of visiting the edit page with `?edit=<username>` and pressing
Save portfolio. -/
inductive EditResult where
  /-- Warning: you must be logged in as this user to edit their portfolio
  (lines 292–293); nothing is written. -/
  | notAuthorized
  /-- `find_one` returned `None` for the session user, so the form code
  would fault before any write (unreachable for states produced by the
  application). -/
  | missingUser
  /-- Success: portfolio saved. -/
  | saved
  deriving DecidableEq, Repr

/-- The `updated` dict of the Save handler, given the form inputs, the
temporary project list (`st.session_state.get("projects_temp", ...)`), the
optional uploaded image bytes and the current time. -/
def saveSetDoc (user_doc : UserDoc) (form : PortfolioForm)
    (projects_temp : Option (List ProjectEntry)) (img : Option Bytes) (now : Nat) :
    SetDoc :=
  { full_name := pyStrip form.full_name
    bio := pyStrip form.bio
    skills := parseSkills form.skills_raw
    projects := projects_temp.getD user_doc.projects
    social_links := [("GitHub", pyStrip form.github),
                     ("LinkedIn", pyStrip form.linkedin),
                     ("Website", pyStrip form.website)]
    updated_at := now
    profile_pic :=
      match img with
      | some bytes => some (image_bytes_to_base64 bytes)
      | none => user_doc.profile_pic }

/-- The edit page with the Save portfolio button pressed: the ownership gate
of lines 290–294 (`not st.session_state.user or st.session_state.user !=
edit_username`; the empty username is falsy), then the `$set` update of
lines 347–363. -/
def edit_portfolio (st : AppState) (edit_username : PyStr) (form : PortfolioForm)
    (projects_temp : Option (List ProjectEntry)) (img : Option Bytes) (now : Nat) :
    EditResult × AppState :=
  match st.session with
  | none => (.notAuthorized, st)
  | some u =>
      if u = [] then (.notAuthorized, st)
      else if u ≠ edit_username then (.notAuthorized, st)
      else
        match find_one st.store edit_username with
        | none => (.missingUser, st)
        | some user_doc =>
            let s := saveSetDoc user_doc form projects_temp img now
            (.saved, { st with store := update_one st.store edit_username s })

/-! ### Concrete instantiation data, for evaluating the model on closed inputs -/

/-- A concrete stand-in key-derivation function used only to instantiate the
universally quantified `kdf` parameter at closed inputs: 32 bytes depending
on password and salt. -/
def kdf0 : Kdf :=
  fun password salt _ =>
    (List.range 32).map (fun i => ((password ++ salt).foldl (· + ·) 0 + i) % 256)

/-- A concrete 16-byte salt. -/
def salt0 : Bytes :=
  List.range SALT_SIZE

/-- A concrete stored document, as the signup handler would create it. -/
def aliceDoc : UserDoc :=
  signupDoc kdf0 salt0 (pyStr "alice") (pyStr "Alice A") (pyStr "a@x.com")
    (pyStr "pw1234") 5

/-- A document whose stored digest is not valid base64 (a single character,
which `base64.b64decode` rejects). -/
def badDigestDoc : UserDoc :=
  { aliceDoc with username := pyStr "mallory", password_hash := [65] }

/-- A concrete stored document with the skill "Python". -/
def pythonDoc : UserDoc :=
  { aliceDoc with username := pyStr "pythonista", skills := [pyStr "Python"] }

/-- The document created by `signup("Alice","Alice A","a@x.com","pw1234","pw1234")`,
for an arbitrary key-derivation function, salt and time. -/
def aliceSignupDoc (kdf : Kdf) (salt : Bytes) (now : Nat) : UserDoc :=
  signupDoc kdf salt (pyStr "Alice") (pyStr "Alice A") (pyStr "a@x.com")
    (pyStr "pw1234") now

/-- Modelled from the spec: the test "the bytes can be decoded as an image
of an accepted type" is performed by code missing from the source (the PIL
image decoder and the uploader widget's type filter are external
libraries); it is modelled as the file-signature check for the accepted
types png, jpg, jpeg.  The source itself never performs any such check
before persisting, which is what claim C9 turns on. -/
def isAcceptedImage (bs : Bytes) : Bool :=
  listStarts bs [137, 80, 78, 71, 13, 10, 26, 10] || listStarts bs [255, 216, 255]

/-- A concrete portfolio form. -/
def form0 : PortfolioForm :=
  { full_name := pyStr "Alice B"
    bio := pyStr "hi"
    skills_raw := pyStr "Python, Go"
    github := pyStr "https://github.com/alice"
    linkedin := []
    website := [] }

/-! ### Lemmas: the base64 round trip -/

theorem b64DecVal_encChar : ∀ v, v < 64 → b64DecVal (b64EncChar v) = some v := by
  decide

theorem ne_pad_of_decVal {c v : Nat} (hv : b64DecVal c = some v) : c ≠ 61 := by
  intro h
  subst h
  simp [b64DecVal] at hv

theorem decAux_d0 {c v : Nat} (rest : Bytes) (lc pads : Nat) (acc : Bytes)
    (hv : b64DecVal c = some v) :
    b64decodeAux (c :: rest) 0 lc pads acc = b64decodeAux rest 1 v pads acc := by
  simp [b64decodeAux, ne_pad_of_decVal hv, hv]

theorem decAux_d1 {c v : Nat} (rest : Bytes) (lc pads : Nat) (acc : Bytes)
    (hv : b64DecVal c = some v) :
    b64decodeAux (c :: rest) 1 lc pads acc =
      b64decodeAux rest 2 (v % 16) pads ((lc * 4 + v / 16) :: acc) := by
  simp [b64decodeAux, ne_pad_of_decVal hv, hv]

theorem decAux_d2 {c v : Nat} (rest : Bytes) (lc pads : Nat) (acc : Bytes)
    (hv : b64DecVal c = some v) :
    b64decodeAux (c :: rest) 2 lc pads acc =
      b64decodeAux rest 3 (v % 4) pads ((lc * 16 + v / 4) :: acc) := by
  simp [b64decodeAux, ne_pad_of_decVal hv, hv]

theorem decAux_d3 {c v : Nat} (rest : Bytes) (lc pads : Nat) (acc : Bytes)
    (hv : b64DecVal c = some v) :
    b64decodeAux (c :: rest) 3 lc pads acc =
      b64decodeAux rest 0 0 pads ((lc * 64 + v) :: acc) := by
  simp [b64decodeAux, ne_pad_of_decVal hv, hv]

theorem decAux_pad2_cont (rest : Bytes) (lc : Nat) (acc : Bytes) :
    b64decodeAux (61 :: rest) 2 lc 0 acc = b64decodeAux rest 2 lc 1 acc := by
  simp [b64decodeAux]

theorem decAux_pad2_end (rest : Bytes) (lc : Nat) (acc : Bytes) :
    b64decodeAux (61 :: rest) 2 lc 1 acc = some acc.reverse := by
  simp [b64decodeAux]

theorem decAux_pad3_end (rest : Bytes) (lc : Nat) (acc : Bytes) :
    b64decodeAux (61 :: rest) 3 lc 0 acc = some acc.reverse := by
  simp [b64decodeAux]

/-- Running the decoding automaton over the encoding of a byte string from a
clean quad boundary recovers the bytes. -/
theorem b64decodeAux_encode :
    ∀ (bs : Bytes), (∀ b ∈ bs, b < 256) → ∀ (acc : Bytes),
      b64decodeAux (b64encode bs) 0 0 0 acc = some (acc.reverse ++ bs)
  | [], _, acc => by simp [b64encode, b64decodeAux]
  | [a], hb, acc => by
      have ha : a < 256 := hb a (by simp)
      rw [show b64encode [a] = [b64EncChar (a / 4), b64EncChar (a % 4 * 16), 61, 61]
            from rfl,
          decAux_d0 _ _ _ _ (b64DecVal_encChar _ (by omega)),
          decAux_d1 _ _ _ _ (b64DecVal_encChar _ (by omega)),
          decAux_pad2_cont, decAux_pad2_end]
      have h1 : a / 4 * 4 + a % 4 * 16 / 16 = a := by omega
      rw [h1]
      simp
  | [a, b], hb, acc => by
      have ha : a < 256 := hb a (by simp)
      have hbb : b < 256 := hb b (by simp)
      rw [show b64encode [a, b] = [b64EncChar (a / 4), b64EncChar (a % 4 * 16 + b / 16),
            b64EncChar (b % 16 * 4), 61] from rfl,
          decAux_d0 _ _ _ _ (b64DecVal_encChar _ (by omega)),
          decAux_d1 _ _ _ _ (b64DecVal_encChar _ (by omega)),
          decAux_d2 _ _ _ _ (b64DecVal_encChar _ (by omega)),
          decAux_pad3_end]
      have h1 : a / 4 * 4 + (a % 4 * 16 + b / 16) / 16 = a := by omega
      have h2 : (a % 4 * 16 + b / 16) % 16 * 16 + b % 16 * 4 / 4 = b := by omega
      rw [h1, h2]
      simp
  | a :: b :: c :: rest, hb, acc => by
      have ha : a < 256 := hb a (by simp)
      have hbb : b < 256 := hb b (by simp)
      have hc : c < 256 := hb c (by simp)
      have ih := b64decodeAux_encode rest (fun x hx => hb x (by simp [hx]))
        (c :: b :: a :: acc)
      rw [show b64encode (a :: b :: c :: rest) =
            b64EncChar (a / 4) :: b64EncChar (a % 4 * 16 + b / 16) ::
            b64EncChar (b % 16 * 4 + c / 64) :: b64EncChar (c % 64) ::
            b64encode rest from rfl,
          decAux_d0 _ _ _ _ (b64DecVal_encChar _ (by omega)),
          decAux_d1 _ _ _ _ (b64DecVal_encChar _ (by omega)),
          decAux_d2 _ _ _ _ (b64DecVal_encChar _ (by omega)),
          decAux_d3 _ _ _ _ (b64DecVal_encChar _ (by omega))]
      have h1 : a / 4 * 4 + (a % 4 * 16 + b / 16) / 16 = a := by omega
      have h2 : (a % 4 * 16 + b / 16) % 16 * 16 + (b % 16 * 4 + c / 64) / 4 = b := by omega
      have h3 : (b % 16 * 4 + c / 64) % 4 * 64 + c % 64 = c := by omega
      rw [h1, h2, h3, ih]
      simp

/-- Round trip: decoding the base64 encoding of a byte string gives it back. -/
theorem b64decode_encode (bs : Bytes) (hb : ∀ b ∈ bs, b < 256) :
    b64decode (b64encode bs) = some bs := by
  simpa [b64decode] using b64decodeAux_encode bs hb []

/-! ### Lemmas: the credential hasher -/

/-- Verifying a fresh digest against the password it was derived from
succeeds (for any key-derivation function, any 16-byte salt). -/
theorem verify_password_hash_password (kdf : Kdf) (salt : Bytes) (p : PyStr)
    (hs : salt.length = SALT_SIZE)
    (hsb : ∀ b ∈ salt, b < 256)
    (hkb : ∀ b ∈ kdf (utf8Encode p) salt ITERATIONS, b < 256) :
    verify_password kdf (hash_password kdf salt p) p = some true := by
  have hall : ∀ b ∈ salt ++ kdf (utf8Encode p) salt ITERATIONS, b < 256 := by
    intro b hbmem
    rcases List.mem_append.mp hbmem with h | h
    · exact hsb b h
    · exact hkb b h
  have hlen : SALT_SIZE = salt.length := hs.symm
  simp only [verify_password, hash_password, b64decode_encode _ hall, hlen,
    List.take_left, List.drop_left]
  simp

/-- Verifying a fresh digest against a password whose derived key differs
from the stored one fails. -/
theorem verify_password_hash_password_ne (kdf : Kdf) (salt : Bytes) (p1 p2 : PyStr)
    (hs : salt.length = SALT_SIZE)
    (hsb : ∀ b ∈ salt, b < 256)
    (hkb : ∀ b ∈ kdf (utf8Encode p1) salt ITERATIONS, b < 256)
    (hne : kdf (utf8Encode p1) salt ITERATIONS ≠ kdf (utf8Encode p2) salt ITERATIONS) :
    verify_password kdf (hash_password kdf salt p1) p2 = some false := by
  have hall : ∀ b ∈ salt ++ kdf (utf8Encode p1) salt ITERATIONS, b < 256 := by
    intro b hbmem
    rcases List.mem_append.mp hbmem with h | h
    · exact hsb b h
    · exact hkb b h
  have hlen : SALT_SIZE = salt.length := hs.symm
  simp only [verify_password, hash_password, b64decode_encode _ hall, hlen,
    List.take_left, List.drop_left]
  simp [hne]

/-! ### Claim C1 -/

/-- C1: for every password `p`, `verify_password (hash_password p) p` is
true; and for every pair of distinct passwords, verification of the digest
of one against the other is false, the probabilistic hedge of the claim
("with overwhelming probability over the random salt") being the hypothesis
that the two PBKDF2-derived keys differ.  The statement holds for every
key-derivation function and every 16-byte salt. -/
theorem claim_C1 (kdf : Kdf) (salt : Bytes) (p1 p2 : PyStr)
    (hs : salt.length = SALT_SIZE)
    (hsb : ∀ b ∈ salt, b < 256)
    (hkb : ∀ b ∈ kdf (utf8Encode p1) salt ITERATIONS, b < 256)
    (hne : kdf (utf8Encode p1) salt ITERATIONS ≠ kdf (utf8Encode p2) salt ITERATIONS) :
    verify_password kdf (hash_password kdf salt p1) p1 = some true ∧
    verify_password kdf (hash_password kdf salt p1) p2 = some false :=
  ⟨verify_password_hash_password kdf salt p1 hs hsb hkb,
   verify_password_hash_password_ne kdf salt p1 p2 hs hsb hkb hne⟩

/-- Witness for C1 at the concrete kdf `kdf0`, salt `salt0` and the
passwords `"a"` and `"b"`. -/
theorem claim_C1_witness :
    verify_password kdf0 (hash_password kdf0 salt0 (pyStr "a")) (pyStr "a") = some true ∧
    verify_password kdf0 (hash_password kdf0 salt0 (pyStr "a")) (pyStr "b") = some false :=
  claim_C1 kdf0 salt0 (pyStr "a") (pyStr "b") (by decide) (by decide) (by decide)
    (by decide)

/-! ### Claim C2 -/

/-- C2: for every non-empty username and password, login produces the same
`invalidCredentials` outcome (the single message "Invalid username or
password") and the same unchanged state, whether the username is absent
from the store or present with a failing password check. -/
theorem claim_C2 (kdf : Kdf) (st : AppState) (u p : PyStr)
    (hu : u ≠ []) (hp : p ≠ []) :
    (find_one st.store (pyLower (pyStrip u)) = none →
      login kdf st u p = (.invalidCredentials, st)) ∧
    (∀ d, find_one st.store (pyLower (pyStrip u)) = some d →
      verify_password kdf d.password_hash p = some false →
      login kdf st u p = (.invalidCredentials, st)) := by
  constructor
  · intro hfind
    simp [login, hu, hp, hfind]
  · intro d hfind hver
    simp [login, hu, hp, hfind, hver]

/-- Witness for C2: against a store holding only the user `alice`, the
attempts `login("nouser","whatever")` and `login("alice","wrongpw")` both
produce `invalidCredentials` with the state unchanged. -/
theorem claim_C2_witness :
    login kdf0 ⟨[aliceDoc], none⟩ (pyStr "nouser") (pyStr "whatever") =
      (.invalidCredentials, ⟨[aliceDoc], none⟩) ∧
    login kdf0 ⟨[aliceDoc], none⟩ (pyStr "alice") (pyStr "wrongpw") =
      (.invalidCredentials, ⟨[aliceDoc], none⟩) :=
  ⟨(claim_C2 kdf0 ⟨[aliceDoc], none⟩ (pyStr "nouser") (pyStr "whatever")
      (by decide) (by decide)).1 (by decide),
   (claim_C2 kdf0 ⟨[aliceDoc], none⟩ (pyStr "alice") (pyStr "wrongpw")
      (by decide) (by decide)).2 aliceDoc (by decide) (by decide)⟩

/-! ### Claim C3 -/

/-- Excluding `password_hash` really removes that key from the projected
document. -/
theorem excludeField_no_password_hash (d : UserDoc) :
    "password_hash" ∉ (excludeField d "password_hash").map Prod.fst := by
  simp [excludeField, docFields]

/-- C3: for every search term (the empty one included) and every store
state, no record returned by the portfolio search, and no record returned
by the single-user view, contains the `password_hash` field. -/
theorem claim_C3 (store : List UserDoc) (term : PyStr) :
    (∀ f ∈ search_portfolios store term, "password_hash" ∉ f.map Prod.fst) ∧
    (∀ uname f, view_user store uname = some f → "password_hash" ∉ f.map Prod.fst) := by
  constructor
  · intro f hf
    obtain ⟨d, _, hd⟩ := List.mem_map.mp hf
    exact hd ▸ excludeField_no_password_hash d
  · intro uname f hf
    obtain ⟨d, _, hd⟩ := Option.map_eq_some'.mp hf
    exact hd ▸ excludeField_no_password_hash d

/-- Witness for C3: searching `"py"` against a store holding a user with
skill `"Python"` returns that user's projected record, and it carries no
`password_hash` key. -/
theorem claim_C3_witness :
    "password_hash" ∉ (excludeField pythonDoc "password_hash").map Prod.fst :=
  (claim_C3 [pythonDoc] (pyStr "py")).1 (excludeField pythonDoc "password_hash")
    (by decide)

/-! ### Claim C4 -/

/-- C4: whenever no user is logged in, or the logged-in username differs
from the target username, the edit page refuses with the authorization
warning and leaves the state (hence the store) untouched, whatever the form
contents, temporary project list or uploaded image. -/
theorem claim_C4 (st : AppState) (edit_username : PyStr) (form : PortfolioForm)
    (projects_temp : Option (List ProjectEntry)) (img : Option Bytes) (now : Nat)
    (h : ∀ u, st.session = some u → u ≠ edit_username) :
    edit_portfolio st edit_username form projects_temp img now = (.notAuthorized, st) := by
  unfold edit_portfolio
  cases hsession : st.session with
  | none => rfl
  | some u =>
    have hne := h u hsession
    by_cases hu : u = [] <;> simp [hu, hne]

/-- Witness for C4: with `alice` logged in, editing `bob`'s portfolio is
refused and the state is unchanged, for a concrete filled-in form. -/
theorem claim_C4_witness :
    edit_portfolio ⟨[aliceDoc], some (pyStr "alice")⟩ (pyStr "bob") form0 none none 7 =
      (.notAuthorized, ⟨[aliceDoc], some (pyStr "alice")⟩) :=
  claim_C4 ⟨[aliceDoc], some (pyStr "alice")⟩ (pyStr "bob") form0 none none 7
    (by intro u hu; simp at hu; subst hu; decide)

/-! ### Claim C5 -/

/-- C5 fails as stated: at a concrete input that passes every validation
check (non-empty username and password, matching confirmation) but whose
username is already in the store, signup does not insert and does not
succeed — it lands in the `except` branch.  The claim's "otherwise it
inserts a new record … and returns success" is therefore false. -/
theorem claim_C5_counterexample :
    (pyStr "alice" ≠ [] ∧ pyStr "pw" ≠ [] ∧ (pyStr "pw" : PyStr) = pyStr "pw") ∧
    (signup kdf0 salt0 ⟨[aliceDoc], none⟩ (pyStr "alice") (pyStr "A") (pyStr "e")
        (pyStr "pw") (pyStr "pw") 9).1 ≠ SignupResult.accountCreated ∧
    (signup kdf0 salt0 ⟨[aliceDoc], none⟩ (pyStr "alice") (pyStr "A") (pyStr "e")
        (pyStr "pw") (pyStr "pw") 9).2 = ⟨[aliceDoc], none⟩ := by
  decide

/-- C5 (amended): signup fails with the validation warning when the
username or password is empty, or when the confirmation mismatches, in both
cases inserting nothing; otherwise, provided the username (stripped and
lowercased) is not already taken, it appends a record whose bio, skills,
projects and social links are all empty and reports success without
touching the session (no auto-login). -/
theorem claim_C5_amended (kdf : Kdf) (salt : Bytes) (st : AppState)
    (username full_name email password confirm : PyStr) (now : Nat) :
    ((username = [] ∨ password = []) →
      signup kdf salt st username full_name email password confirm now =
        (.missingFields, st)) ∧
    (username ≠ [] → password ≠ [] → password ≠ confirm →
      signup kdf salt st username full_name email password confirm now =
        (.passwordMismatch, st)) ∧
    (username ≠ [] → password ≠ [] → password = confirm →
      (∀ d ∈ st.store, d.username ≠ pyLower (pyStrip username)) →
      signup kdf salt st username full_name email password confirm now =
        (.accountCreated,
          { store := st.store ++ [signupDoc kdf salt username full_name email password now],
            session := st.session }) ∧
      (signupDoc kdf salt username full_name email password now).bio = [] ∧
      (signupDoc kdf salt username full_name email password now).skills = [] ∧
      (signupDoc kdf salt username full_name email password now).projects = [] ∧
      (signupDoc kdf salt username full_name email password now).social_links = []) := by
  refine ⟨?_, ?_, ?_⟩
  · intro h
    simp [signup, h]
  · intro h1 h2 h3
    simp [signup, h1, h2, h3]
  · intro h1 h2 h3 hfresh
    subst h3
    have hc1 : ¬(username = [] ∨ password = []) := by
      rintro (h | h)
      · exact h1 h
      · exact h2 h
    have hany : st.store.any
        (fun d => d.username == (signupDoc kdf salt username full_name email password now).username) =
        false := by
      rw [List.any_eq_false]
      intro d hd
      simpa [signupDoc] using hfresh d hd
    refine ⟨?_, rfl, rfl, rfl, rfl⟩
    simp only [signup, if_neg hc1, insert_one]
    rw [if_neg (fun hcon : password ≠ password => hcon rfl)]
    simp [hany]

/-- Witness for C5 (amended), at a fresh username against the empty store. -/
theorem claim_C5_witness :
    signup kdf0 salt0 ⟨[], none⟩ (pyStr "bob") (pyStr "Bob") [] (pyStr "pw")
        (pyStr "pw") 3 =
      (.accountCreated,
        ⟨[signupDoc kdf0 salt0 (pyStr "bob") (pyStr "Bob") [] (pyStr "pw") 3], none⟩) ∧
    (signupDoc kdf0 salt0 (pyStr "bob") (pyStr "Bob") [] (pyStr "pw") 3).bio = [] ∧
    (signupDoc kdf0 salt0 (pyStr "bob") (pyStr "Bob") [] (pyStr "pw") 3).skills = [] :=
  have h := (claim_C5_amended kdf0 salt0 ⟨[], none⟩ (pyStr "bob") (pyStr "Bob") []
    (pyStr "pw") (pyStr "pw") 3).2.2 (by decide) (by decide) rfl (by simp)
  ⟨h.1, h.2.1, h.2.2.1⟩

/-! ### Claim C6 -/

/-- C6: usernames are lowercased at write time, so after
`signup("Alice","Alice A","a@x.com","pw1234","pw1234")` against the empty
store, `login("alice","pw1234")` succeeds, binds the session, and the
record involved has username `"alice"` — for every key-derivation function
and 16-byte salt. -/
theorem claim_C6 (kdf : Kdf) (salt : Bytes) (now : Nat)
    (hs : salt.length = SALT_SIZE)
    (hsb : ∀ b ∈ salt, b < 256)
    (hkb : ∀ b ∈ kdf (utf8Encode (pyStr "pw1234")) salt ITERATIONS, b < 256) :
    signup kdf salt ⟨[], none⟩ (pyStr "Alice") (pyStr "Alice A") (pyStr "a@x.com")
        (pyStr "pw1234") (pyStr "pw1234") now =
      (.accountCreated, ⟨[aliceSignupDoc kdf salt now], none⟩) ∧
    (aliceSignupDoc kdf salt now).username = pyStr "alice" ∧
    login kdf ⟨[aliceSignupDoc kdf salt now], none⟩ (pyStr "alice") (pyStr "pw1234") =
      (.loggedIn (pyStr "alice"),
       ⟨[aliceSignupDoc kdf salt now], some (pyStr "alice")⟩) := by
  have husr : (aliceSignupDoc kdf salt now).username = pyStr "alice" := by
    show pyLower (pyStrip (pyStr "Alice")) = pyStr "alice"
    decide
  refine ⟨rfl, husr, ?_⟩
  have ht : pyLower (pyStrip (pyStr "alice")) = pyStr "alice" := by decide
  have hfind : find_one [aliceSignupDoc kdf salt now] (pyLower (pyStrip (pyStr "alice"))) =
      some (aliceSignupDoc kdf salt now) := by
    simp [find_one, List.find?, ht, husr]
  have hph : (aliceSignupDoc kdf salt now).password_hash =
      hash_password kdf salt (pyStr "pw1234") := rfl
  have hver := verify_password_hash_password kdf salt (pyStr "pw1234") hs hsb hkb
  have hcl : ¬(pyStr "alice" = [] ∨ pyStr "pw1234" = []) := by decide
  simp only [login, if_neg hcl, hfind, hph, hver, husr]

/-- Witness for C6 at the concrete kdf and salt. -/
theorem claim_C6_witness :
    login kdf0 ⟨[aliceSignupDoc kdf0 salt0 5], none⟩ (pyStr "alice") (pyStr "pw1234") =
      (.loggedIn (pyStr "alice"),
       ⟨[aliceSignupDoc kdf0 salt0 5], some (pyStr "alice")⟩) :=
  (claim_C6 kdf0 salt0 5 (by decide) (by decide) (by decide)).2.2

/-! ### Claim C7, with lemmas on `strip` and `lower` -/

/-- ASCII case folding does not move a character in or out of the
whitespace class. -/
theorem pyIsSpace_lowerChar (c : Nat) : pyIsSpace (pyLowerChar c) = pyIsSpace c := by
  by_cases h : 65 ≤ c ∧ c ≤ 90
  · have h1 : pyLowerChar c = c + 32 := by simp [pyLowerChar, h]
    rw [h1]
    have ha : pyIsSpace (c + 32) = false := by simp [pyIsSpace]; omega
    have hb : pyIsSpace c = false := by simp [pyIsSpace]; omega
    rw [ha, hb]
  · have h1 : pyLowerChar c = c := by simp [pyLowerChar, h]
    rw [h1]

theorem length_dropWhile_le (p : Nat → Bool) (l : List Nat) :
    (List.dropWhile p l).length ≤ l.length := by
  induction l with
  | nil => simp
  | cons a t ih =>
    cases hp : p a
    · simp [List.dropWhile, hp]
    · simp [List.dropWhile, hp]
      omega

theorem dropWhile_eq_self_of_length (p : Nat → Bool) (l : List Nat)
    (h : (List.dropWhile p l).length = l.length) : List.dropWhile p l = l := by
  cases l with
  | nil => simp
  | cons a t =>
    cases hp : p a
    · simp [List.dropWhile, hp]
    · exfalso
      have hle := length_dropWhile_le p t
      simp [List.dropWhile, hp] at h
      omega

/-- If `dropWhile` is trivial on the case-folded image of a list, it is
trivial on the list itself (case folding preserves whitespace-ness). -/
theorem dropWhile_space_of_map_lower (v : List Nat)
    (h : List.dropWhile pyIsSpace (v.map pyLowerChar) = v.map pyLowerChar) :
    List.dropWhile pyIsSpace v = v := by
  cases v with
  | nil => simp
  | cons a t =>
    cases hp : pyIsSpace a
    · simp [List.dropWhile, hp]
    · exfalso
      have hpl : pyIsSpace (pyLowerChar a) = true := by
        rw [pyIsSpace_lowerChar, hp]
      simp [List.dropWhile, hpl] at h
      have hle := length_dropWhile_le pyIsSpace (t.map pyLowerChar)
      have hml : (t.map pyLowerChar).length = t.length := by simp
      have := congrArg List.length h
      simp at this
      omega

/-- A string equal to its own strip neither starts nor ends with
whitespace: both one-sided `dropWhile`s are trivial. -/
theorem pyStrip_eq_self_parts (s : PyStr) (h : pyStrip s = s) :
    List.dropWhile pyIsSpace s = s ∧
    List.dropWhile pyIsSpace s.reverse = s.reverse := by
  unfold pyStrip at h
  have hlen2 := congrArg List.length h
  have hl1 := length_dropWhile_le pyIsSpace s
  have hl2 := length_dropWhile_le pyIsSpace (List.dropWhile pyIsSpace s).reverse
  simp at hlen2
  simp [List.length_reverse] at hl2
  have hd1 : List.dropWhile pyIsSpace s = s := by
    apply dropWhile_eq_self_of_length
    omega
  refine ⟨hd1, ?_⟩
  rw [hd1] at h
  have : List.dropWhile pyIsSpace s.reverse = s.reverse := by
    have := congrArg List.reverse h
    simpa using this
  exact this

/-- A case variant of a stripped string is itself stripped. -/
theorem pyStrip_eq_self_of_lower (v u : PyStr) (hlow : pyLower v = u)
    (hstrip : pyStrip u = u) : pyStrip v = v := by
  subst hlow
  obtain ⟨h1, h2⟩ := pyStrip_eq_self_parts _ hstrip
  have hv1 : List.dropWhile pyIsSpace v = v :=
    dropWhile_space_of_map_lower v h1
  have hv2 : List.dropWhile pyIsSpace v.reverse = v.reverse := by
    apply dropWhile_space_of_map_lower
    rw [List.map_reverse]
    simpa [pyLower] using h2
  unfold pyStrip
  rw [hv1, hv2, List.reverse_reverse]

/-- C7: if the store holds a record whose username is `u` (stripped, as
every record written by the application is), then signup with any case
variant `v` of `u` — nonempty, with a nonempty matching password — lands in
the `except` branch (the unique-index `DuplicateKeyError`) and returns the
state unchanged: every existing record is untouched. -/
theorem claim_C7 (kdf : Kdf) (salt : Bytes) (st : AppState) (u v : PyStr) (d : UserDoc)
    (full_name email password : PyStr) (now : Nat)
    (hmem : d ∈ st.store) (hdu : d.username = u)
    (hvariant : pyLower v = u) (hustrip : pyStrip u = u)
    (hv : v ≠ []) (hpw : password ≠ []) :
    signup kdf salt st v full_name email password password now = (.createError, st) := by
  have hsv : pyStrip v = v := pyStrip_eq_self_of_lower v u hvariant hustrip
  have hc1 : ¬(v = [] ∨ password = []) := by
    rintro (h | h)
    · exact hv h
    · exact hpw h
  have hdup : st.store.any
      (fun e => e.username == (signupDoc kdf salt v full_name email password now).username) =
      true := by
    rw [List.any_eq_true]
    refine ⟨d, hmem, ?_⟩
    simp [signupDoc, hsv, hvariant, hdu]
  simp only [signup, if_neg hc1, insert_one]
  rw [if_neg (fun hcon : password ≠ password => hcon rfl)]
  simp [hdup]

/-- Witness for C7: with `alice` stored, signup as `ALICE` is rejected and
the state is unchanged. -/
theorem claim_C7_witness :
    signup kdf0 salt0 ⟨[aliceDoc], none⟩ (pyStr "ALICE") (pyStr "X") []
        (pyStr "pw") (pyStr "pw") 9 = (.createError, ⟨[aliceDoc], none⟩) :=
  claim_C7 kdf0 salt0 ⟨[aliceDoc], none⟩ (pyStr "alice") (pyStr "ALICE") aliceDoc
    (pyStr "X") [] (pyStr "pw") 9 (by simp) (by decide) (by decide) (by decide)
    (by decide) (by decide)

/-! ### Claim C8 -/

/-- C8 fails as stated: at a concrete store whose user `mallory` carries a
digest that is not valid base64, login raises the uncaught decode exception
instead of reporting invalid credentials — `verify_password` has no error
handling and the login handler has no `try`/`except` around it. -/
theorem claim_C8_counterexample :
    (login kdf0 ⟨[badDigestDoc], none⟩ (pyStr "mallory") (pyStr "pw")).1 =
      LoginResult.decodeException ∧
    LoginResult.decodeException ≠ LoginResult.invalidCredentials := by
  decide

/-- C8 (amended): a stored digest that `base64.b64decode` rejects makes
`verify_password` signal the decode error, and the login path propagates it
as an unhandled fault (it does not report invalid credentials); the state is
left unchanged. -/
theorem claim_C8_amended (kdf : Kdf) (st : AppState) (u p : PyStr) (d : UserDoc)
    (hu : u ≠ []) (hp : p ≠ [])
    (hfind : find_one st.store (pyLower (pyStrip u)) = some d)
    (hbad : b64decode d.password_hash = none) :
    verify_password kdf d.password_hash p = none ∧
    login kdf st u p = (.decodeException, st) := by
  have hver : verify_password kdf d.password_hash p = none := by
    simp [verify_password, hbad]
  refine ⟨hver, ?_⟩
  simp [login, hu, hp, hfind, hver]

/-- Witness for C8 (amended) at the concrete malformed digest `"A"`. -/
theorem claim_C8_witness :
    verify_password kdf0 badDigestDoc.password_hash (pyStr "pw") = none ∧
    login kdf0 ⟨[badDigestDoc], none⟩ (pyStr "mallory") (pyStr "pw") =
      (.decodeException, ⟨[badDigestDoc], none⟩) :=
  claim_C8_amended kdf0 ⟨[badDigestDoc], none⟩ (pyStr "mallory") (pyStr "pw")
    badDigestDoc (by decide) (by decide) (by decide) (by decide)

/-! ### Claim C9 -/

/-- C9 fails as stated: the bytes `[0, 1, 2]` are not a decodable image of
an accepted type, yet saving the portfolio with them uploaded succeeds and
persists their base64 encoding — the code never validates the uploaded
bytes (the uploader widget filters on file extension only), and no
`UnsupportedFormatError` outcome exists. -/
theorem claim_C9_counterexample :
    isAcceptedImage [0, 1, 2] = false ∧
    (edit_portfolio ⟨[aliceDoc], some (pyStr "alice")⟩ (pyStr "alice") form0 none
        (some [0, 1, 2]) 9).1 = EditResult.saved ∧
    (find_one (edit_portfolio ⟨[aliceDoc], some (pyStr "alice")⟩ (pyStr "alice") form0
          none (some [0, 1, 2]) 9).2.store (pyStr "alice")).map UserDoc.profile_pic =
      some (some (image_bytes_to_base64 [0, 1, 2])) := by
  decide

/-- C9 (amended): for any uploaded bytes whatsoever, the save path performs
no image validation: it base64-encodes the bytes and persists them through
the store update, reporting success. -/
theorem claim_C9_amended (st : AppState) (edit_username : PyStr) (form : PortfolioForm)
    (projects_temp : Option (List ProjectEntry)) (bytes : Bytes) (now : Nat) (d : UserDoc)
    (hsession : st.session = some edit_username) (hne : edit_username ≠ [])
    (hfind : find_one st.store edit_username = some d) :
    edit_portfolio st edit_username form projects_temp (some bytes) now =
      (.saved,
       { st with store := (update_one st.store edit_username
           (saveSetDoc d form projects_temp (some bytes) now)) }) ∧
    (saveSetDoc d form projects_temp (some bytes) now).profile_pic =
      some (image_bytes_to_base64 bytes) := by
  constructor
  · simp [edit_portfolio, hsession, hne, hfind]
  · rfl

/-- Witness for C9 (amended) at concrete non-image bytes. -/
theorem claim_C9_witness :
    edit_portfolio ⟨[aliceDoc], some (pyStr "alice")⟩ (pyStr "alice") form0 none
        (some [0, 1, 2]) 9 =
      (.saved,
       { store := update_one [aliceDoc] (pyStr "alice")
           (saveSetDoc aliceDoc form0 none (some [0, 1, 2]) 9),
         session := some (pyStr "alice") }) ∧
    (saveSetDoc aliceDoc form0 none (some [0, 1, 2]) 9).profile_pic =
      some (image_bytes_to_base64 [0, 1, 2]) :=
  claim_C9_amended ⟨[aliceDoc], some (pyStr "alice")⟩ (pyStr "alice") form0 none
    [0, 1, 2] 9 aliceDoc rfl (by decide) (by decide)

/-! ### Claim C10 -/

/-- The `$set` update keeps the username of the updated document, so the
updated document is still found under the same key, with the `$set`
applied. -/
theorem find_one_update_one (store : List UserDoc) (uname : PyStr) (s : SetDoc)
    (d : UserDoc) (h : find_one store uname = some d) :
    find_one (update_one store uname s) uname = some (applySet s d) := by
  induction store with
  | nil => simp [find_one] at h
  | cons e t ih =>
    by_cases he : (e.username == uname) = true
    · have hed : e = d := by
        simpa [find_one, List.find?, he] using h
      subst hed
      have happ : ((applySet s e).username == uname) = true := he
      simp [find_one, List.find?, update_one, he, happ]
    · have ht : find_one t uname = some d := by
        simpa [find_one, List.find?, he] using h
      have := ih ht
      simp [find_one, List.find?, update_one, he] at this ⊢
      exact this

/-- C10: a save on an existing record under an authorized session changes
exactly the written fields: username, email, password hash and creation
time are unchanged; without an upload the profile picture keeps its prior
value, with an upload it becomes the base64 encoding of the uploaded bytes;
full name, bio, skills, projects, social links and `updated_at` take the
form's values. -/
theorem claim_C10 (st : AppState) (edit_username : PyStr) (form : PortfolioForm)
    (projects_temp : Option (List ProjectEntry)) (img : Option Bytes) (now : Nat)
    (d : UserDoc)
    (hsession : st.session = some edit_username) (hne : edit_username ≠ [])
    (hfind : find_one st.store edit_username = some d) :
    ∃ d', find_one (edit_portfolio st edit_username form projects_temp img now).2.store
        edit_username = some d' ∧
      d'.username = d.username ∧
      d'.email = d.email ∧
      d'.password_hash = d.password_hash ∧
      d'.created_at = d.created_at ∧
      (img = none → d'.profile_pic = d.profile_pic) ∧
      (∀ bytes, img = some bytes → d'.profile_pic = some (image_bytes_to_base64 bytes)) ∧
      d'.full_name = pyStrip form.full_name ∧
      d'.bio = pyStrip form.bio ∧
      d'.skills = parseSkills form.skills_raw ∧
      d'.projects = projects_temp.getD d.projects ∧
      d'.social_links = [("GitHub", pyStrip form.github), ("LinkedIn", pyStrip form.linkedin),
        ("Website", pyStrip form.website)] ∧
      d'.updated_at = now := by
  refine ⟨applySet (saveSetDoc d form projects_temp img now) d, ?_, rfl, rfl, rfl, rfl,
    ?_, ?_, rfl, rfl, rfl, rfl, rfl, rfl⟩
  · have hstore : (edit_portfolio st edit_username form projects_temp img now).2.store =
        update_one st.store edit_username (saveSetDoc d form projects_temp img now) := by
      simp [edit_portfolio, hsession, hne, hfind]
    rw [hstore]
    exact find_one_update_one st.store edit_username _ d hfind
  · intro himg
    subst himg
    rfl
  · intro bytes himg
    subst himg
    rfl

/-- Witness for C10 at a concrete state, form and no upload. -/
theorem claim_C10_witness :
    ∃ d', find_one (edit_portfolio ⟨[aliceDoc], some (pyStr "alice")⟩ (pyStr "alice")
          form0 none none 9).2.store (pyStr "alice") = some d' ∧
      d'.username = aliceDoc.username ∧
      d'.email = aliceDoc.email ∧
      d'.password_hash = aliceDoc.password_hash ∧
      d'.created_at = aliceDoc.created_at ∧
      (none = (none : Option Bytes) → d'.profile_pic = aliceDoc.profile_pic) ∧
      (∀ bytes, (none : Option Bytes) = some bytes →
        d'.profile_pic = some (image_bytes_to_base64 bytes)) ∧
      d'.full_name = pyStrip form0.full_name ∧
      d'.bio = pyStrip form0.bio ∧
      d'.skills = parseSkills form0.skills_raw ∧
      d'.projects = (none : Option (List ProjectEntry)).getD aliceDoc.projects ∧
      d'.social_links = [("GitHub", pyStrip form0.github), ("LinkedIn", pyStrip form0.linkedin),
        ("Website", pyStrip form0.website)] ∧
      d'.updated_at = 9 :=
  claim_C10 ⟨[aliceDoc], some (pyStr "alice")⟩ (pyStr "alice") form0 none none 9
    aliceDoc rfl (by decide) (by decide)

end Newapp
